import Mathlib

/-!
Verification model of AutoNetworkLogin (自动登录 V1.2 / V1.2.2).

The Python program is shallowly embedded: `LoginWorker.do_login` becomes a
pure function from a configuration record and a transport result to the list
of `(message, success)` signals it emits; the `NetworkLoginApp` controller
becomes explicit state passing over an `AppState` record, with uncaught
exceptions of a Qt slot modelled as `Except.error` carrying the missing key,
and the thread spawns instrumented by ghost counters (`inFlight`, `spawned`).
-/

/-! ### Python string semantics helpers -/

/-- Does the character list `hay` start with `needle`? (helper for substring
containment, mirroring Python's `in` operator on `str`). -/
def startsL : List Char → List Char → Bool
  | _, [] => true
  | [], _ :: _ => false
  | a :: as, b :: bs => a == b && startsL as bs

/-- Contiguous-substring containment on character lists. -/
def containsL : List Char → List Char → Bool
  | [], needle => needle.isEmpty
  | a :: t, needle => startsL (a :: t) needle || containsL t needle

/-- Python's `needle in hay` on strings: contiguous substring containment. -/
def pyIn (needle hay : String) : Bool :=
  containsL hay.data needle.data

/-- Python's `str.lower()` restricted to the ASCII range (the program only
compares against ASCII needles such as "success"). -/
def pyLower (s : String) : String :=
  s.toLower

/-! ### A model of JSON values as decoded by `response.json()` -/

/-- JSON values as Python's `json` module decodes them (floats are not needed
by any observed behaviour and are omitted; numbers are integers). -/
inductive JValue where
  | jnull
  | jbool (b : Bool)
  | jnum (n : Int)
  | jstr (s : String)
  | jarr (xs : List JValue)
  | jobj (fields : List (String × JValue))
deriving Repr, BEq

/-- Python truthiness of a decoded JSON value (`if result.get('success'):`).
`None`, `False`, `0`, `""`, `[]` and `{}` are falsy. -/
def pyTruthy : JValue → Bool
  | .jnull => false
  | .jbool b => b
  | .jnum n => n != 0
  | .jstr s => !s.isEmpty
  | .jarr xs => !xs.isEmpty
  | .jobj fs => !fs.isEmpty

/-- Python's `dict.get(key)` on a decoded JSON object: `None` when absent.
This is only called on `.jobj` field lists; keys are unique in a dict so the
first match is the binding. -/
def pyGet (fields : List (String × JValue)) (key : String) : Option JValue :=
  fields.lookup key

mutual

/-- Python's `str()` of a decoded JSON value, as an f-string interpolates it. -/
def pyStr : JValue → String
  | .jstr s => s
  | v => pyRepr v

/-- Python's `repr()` of a decoded JSON value (used by `str()` on containers). -/
def pyRepr : JValue → String
  | .jnull => "None"
  | .jbool true => "True"
  | .jbool false => "False"
  | .jnum n => toString n
  | .jstr s => "\x27" ++ s ++ "\x27"
  | .jarr xs => "[" ++ String.intercalate ", " (pyReprList xs) ++ "]"
  | .jobj fs => "\x7b" ++ String.intercalate ", " (pyReprFields fs) ++ "\x7d"

/-- `repr` of each element of a JSON array. -/
def pyReprList : List JValue → List String
  | [] => []
  | x :: xs => pyRepr x :: pyReprList xs

/-- `repr` of each `key: value` binding of a JSON object. -/
def pyReprFields : List (String × JValue) → List String
  | [] => []
  | (k, v) :: fs => ("\x27" ++ k ++ "\x27: " ++ pyRepr v) :: pyReprFields fs

end

/-- The Python type name of a decoded JSON value, as it appears in an
`AttributeError` message (`'str' object has no attribute 'get'`). -/
def pyTypeName : JValue → String
  | .jnull => "NoneType"
  | .jbool _ => "bool"
  | .jnum _ => "int"
  | .jstr _ => "str"
  | .jarr _ => "list"
  | .jobj _ => "dict"

/-- The `str()` of the `AttributeError` raised by `result.get` when the
decoded JSON value is not a dict. -/
def attrErrMsg (v : JValue) : String :=
  "\x27" ++ pyTypeName v ++ "\x27 object has no attribute \x27get\x27"

/-- The `str()` of a `KeyError` for a missing configuration key: Python
renders it as the `repr` of the key. -/
def keyErrMsg (key : String) : String :=
  "\x27" ++ key ++ "\x27"

/-! ### LoginWorker model (V1.2.2 and V1.2)

`LoginWorker.do_login` reads the configuration dict, posts the login request,
classifies the response, and emits exactly one `login_result(message,
success)` signal on every path. The configuration is modelled with `Option`
fields (a `none` field is a missing dict key, raising `KeyError`); the
network interaction is a `TransportResult` parameter; the function returns
the list of emitted `(message, success)` signals. -/

/-- The `Login` section of the configuration dict as the worker reads it;
`none` means the key is missing (access raises `KeyError`). -/
structure WorkerLoginSection where
  url : Option String
  opr : Option String
  userName : Option String
  pwd : Option String
  auth_tag : Option String
  rememberPwd : Option String
deriving Repr

/-- The configuration dict as the worker reads it: the `Login` section and
the `Headers` section, each possibly missing. -/
structure WorkerConfig where
  login : Option WorkerLoginSection
  headers : Option (List (String × String))
deriving Repr

/-- Outcome of `requests.post`: either a response whose `.json()` yields a
decoded value (`none` = the body is not JSON, `.json()` raises `ValueError`)
and whose `.text` is a string, or a raised `requests.exceptions.
RequestException` (connection refused, DNS failure, timeout) with its
`str()` description. -/
inductive TransportResult where
  | response (json : Option JValue) (text : String)
  | requestError (desc : String)
deriving Repr

namespace V122

/-- `LoginWorker.do_login` of 自动登录-V1.2.2.py, lines 21-52: reads
`config['Login']['url']`, the five body fields (in dict-literal order) and
`config['Headers']`; posts; classifies the response; every exception is
caught (`RequestException` first, then `Exception`, which also receives the
`KeyError`s and the `AttributeError` from `result.get` on a non-dict) and
turned into one emitted signal. Returns the list of emitted
`(message, success)` pairs. -/
def do_login (cfg : WorkerConfig) (transport : TransportResult) :
    List (String × Bool) :=
  match cfg.login with
  | none => [("错误: " ++ keyErrMsg "Login", false)]
  | some lg =>
    match lg.url with
    | none => [("错误: " ++ keyErrMsg "url", false)]
    | some _ =>
      match lg.opr with
      | none => [("错误: " ++ keyErrMsg "opr", false)]
      | some _ =>
        match lg.userName with
        | none => [("错误: " ++ keyErrMsg "userName", false)]
        | some _ =>
          match lg.pwd with
          | none => [("错误: " ++ keyErrMsg "pwd", false)]
          | some _ =>
            match lg.auth_tag with
            | none => [("错误: " ++ keyErrMsg "auth_tag", false)]
            | some _ =>
              match lg.rememberPwd with
              | none => [("错误: " ++ keyErrMsg "rememberPwd", false)]
              | some _ =>
                match cfg.headers with
                | none => [("错误: " ++ keyErrMsg "Headers", false)]
                | some _ =>
                  match transport with
                  | .requestError desc => [("连接失败: " ++ desc, false)]
                  | .response json text =>
                    match json with
                    | some (.jobj fields) =>
                      if pyTruthy ((pyGet fields "success").getD .jnull) then
                        [("登录成功: " ++
                            pyStr ((pyGet fields "msg").getD (.jstr "")),
                          true)]
                      else
                        [("登录失败: " ++
                            pyStr ((pyGet fields "msg").getD (.jstr "未知错误")),
                          false)]
                    | some v => [("错误: " ++ attrErrMsg v, false)]
                    | none =>
                      if pyIn "success" (pyLower text) ||
                          pyIn "logon success" (pyLower text) then
                        [("登录成功", true)]
                      else
                        [("登录响应: " ++ text.take 100, false)]

end V122

namespace V12

/-- `LoginWorker.do_login` of 自动登录-V1.2.py, lines 21-52. The source text
of the worker is identical to the V1.2.2 one; the embedding is repeated
verbatim so the two versions can be compared. -/
def do_login (cfg : WorkerConfig) (transport : TransportResult) :
    List (String × Bool) :=
  match cfg.login with
  | none => [("错误: " ++ keyErrMsg "Login", false)]
  | some lg =>
    match lg.url with
    | none => [("错误: " ++ keyErrMsg "url", false)]
    | some _ =>
      match lg.opr with
      | none => [("错误: " ++ keyErrMsg "opr", false)]
      | some _ =>
        match lg.userName with
        | none => [("错误: " ++ keyErrMsg "userName", false)]
        | some _ =>
          match lg.pwd with
          | none => [("错误: " ++ keyErrMsg "pwd", false)]
          | some _ =>
            match lg.auth_tag with
            | none => [("错误: " ++ keyErrMsg "auth_tag", false)]
            | some _ =>
              match lg.rememberPwd with
              | none => [("错误: " ++ keyErrMsg "rememberPwd", false)]
              | some _ =>
                match cfg.headers with
                | none => [("错误: " ++ keyErrMsg "Headers", false)]
                | some _ =>
                  match transport with
                  | .requestError desc => [("连接失败: " ++ desc, false)]
                  | .response json text =>
                    match json with
                    | some (.jobj fields) =>
                      if pyTruthy ((pyGet fields "success").getD .jnull) then
                        [("登录成功: " ++
                            pyStr ((pyGet fields "msg").getD (.jstr "")),
                          true)]
                      else
                        [("登录失败: " ++
                            pyStr ((pyGet fields "msg").getD (.jstr "未知错误")),
                          false)]
                    | some v => [("错误: " ++ attrErrMsg v, false)]
                    | none =>
                      if pyIn "success" (pyLower text) ||
                          pyIn "logon success" (pyLower text) then
                        [("登录成功", true)]
                      else
                        [("登录响应: " ++ text.take 100, false)]

end V12

/-! ### Spec-side outcome abstraction

The spec's `LoginOutcome` is a tagged type `Success | Failure |
TransportError`; the code emits a `(message, success)` pair. The abstraction
map below recovers the tag from the emitted pair: it follows the spec's
words and exists only to be compared with what the source emits. -/

/-- The spec's tagged login outcome. -/
inductive LoginOutcome where
  | Success (msg : String)
  | Failure (msg : String)
  | TransportError (msg : String)
deriving Repr, DecidableEq

/-- Is the outcome a `TransportError`? -/
def LoginOutcome.isTransport : LoginOutcome → Bool
  | .TransportError _ => true
  | _ => false

/-- Abstraction map from an emitted `(message, success)` signal to the
spec's `LoginOutcome`: a true flag is `Success`; a false flag whose message
carries the connection-failure prefix `连接失败` is `TransportError`; any
other false flag is `Failure`. -/
def outcomeOfSignal (sig : String × Bool) : LoginOutcome :=
  if sig.2 then .Success sig.1
  else if startsL sig.1.data "连接失败".data then .TransportError sig.1
  else .Failure sig.1

/-! ### NetworkLoginApp controller model (V1.2.2)

The controller is embedded as explicit state passing over `AppState`. Qt
slots whose dict accesses can raise an uncaught exception return
`Except String AppState` with the missing key as the error; `reload_config`
catches every exception itself and is total. Timestamps, tray balloons and
widget geometry are presentation-only and are not part of the state; the
log is kept as the list of messages passed to `self.log`. Two ghost
counters instrument the worker threads the controller spawns: `spawned`
counts every `threading.Thread(...).start()` of a login attempt (each
performs at most one network call), and `inFlight` counts the spawned
attempts whose `login_result` has not yet been delivered. -/

/-- The `Settings` section of the controller's configuration dict; `none`
fields are missing keys (read through `dict.get` with a default). -/
structure SettingsSection where
  auto_reconnect : Option Bool
  check_interval : Option Nat
  periodic_login_interval : Option Nat
  forced_auto_reconnect : Option Bool
deriving Repr, DecidableEq

/-- The `Login` section as the controller reads it (placeholder guard and
username display). -/
structure LoginSection where
  userName : Option String
  pwd : Option String
  url : Option String
deriving Repr, DecidableEq

/-- The controller's configuration dict: `Login` and `Settings` sections,
each possibly missing (a missing section read with `[...]` raises
`KeyError`). -/
structure AppConfig where
  login : Option LoginSection
  settings : Option SettingsSection
deriving Repr, DecidableEq

/-- The mutable state of `NetworkLoginApp` that the embedded slots read and
write, plus the ghost attempt counters and the log. `timer` is the periodic
login `QTimer`: `some ms` when running with interval `ms` milliseconds,
`none` when stopped. -/
structure AppState where
  config : AppConfig
  auto_reconnect : Bool
  check_interval : Nat
  periodic_login_interval : Nat
  forced_auto_reconnect : Bool
  timer : Option Nat
  inFlight : Nat
  spawned : Nat
  logs : List String
deriving Repr, DecidableEq

namespace NetworkLoginApp

/-- `NetworkLoginApp.log`: appends the message to the run log (the source
prefixes a wall-clock timestamp, which is not modelled). -/
def log (s : AppState) (m : String) : AppState :=
  { s with logs := s.logs ++ [m] }

/-- `NetworkLoginApp.save_config`: writes `self.config` back to disk; no
in-memory state changes. -/
def save_config (s : AppState) : AppState :=
  s

/-- The placeholder username of the generated default configuration. -/
def placeholderUser : String := "YOUR_USERNAME"

/-- The placeholder password of the generated default configuration. -/
def placeholderPwd : String := "YOUR_PASSWORD"

/-- The placeholder login URL of the generated default configuration. -/
def placeholderUrl : String := "http://YOUR_LOGIN_SERVER_URL/ac_portal/login.php"

/-- `NetworkLoginApp.do_login` (V1.2.2 lines 456-471): the guard reads
`config['Login']['userName']`, `['pwd']`, `['url']` with Python's
short-circuit `or`; if any placeholder matches it logs the refusal (and
shows a tray warning) and returns without any network call; otherwise it
creates a `LoginWorker` and starts it on a new thread — unconditionally,
with no check of any in-flight attempt. A missing dict key raises
`KeyError`, modelled as `Except.error` with the key. -/
def do_login (s : AppState) : Except String AppState :=
  match s.config.login with
  | none => .error "Login"
  | some lg =>
    match lg.userName with
    | none => .error "userName"
    | some u =>
      if u == placeholderUser then
        .ok (log s "错误: 请先编辑配置文件，填写正确的登录信息")
      else
        match lg.pwd with
        | none => .error "pwd"
        | some p =>
          if p == placeholderPwd then
            .ok (log s "错误: 请先编辑配置文件，填写正确的登录信息")
          else
            match lg.url with
            | none => .error "url"
            | some url =>
              if pyIn "YOUR_LOGIN_SERVER" url then
                .ok (log s "错误: 请先编辑配置文件，填写正确的登录信息")
              else
                .ok { s with inFlight := s.inFlight + 1,
                             spawned := s.spawned + 1 }

/-- `NetworkLoginApp.manual_login`: logs and calls `do_login`. -/
def manual_login (s : AppState) : Except String AppState :=
  do_login (log s "执行手动登录...")

/-- `NetworkLoginApp.on_network_status_changed` (V1.2.2 lines 445-449): on a
probe result, `if not status and self.auto_reconnect:` log and `do_login`;
otherwise nothing. -/
def on_network_status_changed (s : AppState) (status : Bool) :
    Except String AppState :=
  if !status && s.auto_reconnect then
    do_login (log s "检测到网络不可用，尝试登录...")
  else
    .ok s

/-- `NetworkLoginApp.update_periodic_timer` (V1.2.2 lines 420-435): interval
`> 0` starts the `QTimer` at `interval * 1000` milliseconds and logs;
interval `= 0` stops the timer and logs (the next-time label is
presentation-only). -/
def update_periodic_timer (s : AppState) : AppState :=
  if s.periodic_login_interval > 0 then
    log { s with timer := some (s.periodic_login_interval * 1000) }
      ("定期登录已启用，间隔: " ++ toString s.periodic_login_interval ++ "秒")
  else
    log { s with timer := none } "定期登录已关闭"

/-- `NetworkLoginApp.periodic_login`: fired by the periodic `QTimer`; logs
and calls `do_login` with no condition on `auto_reconnect`. -/
def periodic_login (s : AppState) : Except String AppState :=
  do_login (log s ("执行定期登录（间隔: " ++
    toString s.periodic_login_interval ++ "秒）..."))

/-- `NetworkLoginApp.toggle_auto_reconnect` (V1.2.2 lines 482-501): when
`forced_auto_reconnect` is set the slot re-checks the checkbox, logs that
the setting is locked, and returns with everything else unchanged;
otherwise it adopts the requested value (from the tray action's `bool` or
the checkbox state), writes it into `config['Settings']` (raising
`KeyError` when the section is missing), saves, and logs the new status. -/
def toggle_auto_reconnect (s : AppState) (requested : Bool) :
    Except String AppState :=
  if s.forced_auto_reconnect then
    .ok (log s "自动重连已被配置文件锁定，无法修改")
  else
    let s := { s with auto_reconnect := requested }
    match s.config.settings with
    | none => .error "Settings"
    | some st =>
      let s := { s with config := { s.config with
        settings := some { st with auto_reconnect := some requested } } }
      let s := save_config s
      .ok (log s ("自动重连已" ++ (if requested then "开启" else "关闭")))

/-- `NetworkLoginApp.update_periodic_login_interval` (V1.2.2 lines 511-522):
stores the new interval, writes it into `config['Settings']` (raising
`KeyError` when the section is missing), saves, logs, and calls
`update_periodic_timer` to cancel-and-recreate or stop the timer. -/
def update_periodic_login_interval (s : AppState) (n : Nat) :
    Except String AppState :=
  let s := { s with periodic_login_interval := n }
  match s.config.settings with
  | none => .error "Settings"
  | some st =>
    let s := { s with config := { s.config with
      settings := some { st with periodic_login_interval := some n } } }
    let s := save_config s
    let s := log s (if n > 0 then
        "定期登录间隔已更新为 " ++ toString n ++ " 秒"
      else "定期登录已关闭")
    .ok (update_periodic_timer s)

/-- What `yaml.safe_load` hands `reload_config`: either a raised parse error
with its `str()` description, or a parsed document (whose `Login` /
`Settings` sections may be missing). -/
inductive ReloadInput where
  | parseError (desc : String)
  | parsed (nc : AppConfig)
deriving Repr

/-- `NetworkLoginApp.reload_config` (V1.2.2 lines 539-586): the whole body
is inside `try`/`except Exception`, so the slot never raises. On a parse
error nothing was assigned yet and only the failure log is emitted. When
parsing succeeds the code first executes `self.config = new_config` and
only then reads `self.config['Settings']` (four `.get` reads with defaults)
and later `self.config['Login']` — so a parsed document missing a section
raises `KeyError` after the snapshot (and for a missing `Login`, also the
derived settings) have already been replaced, and the `except` block merely
logs the failure. On full success the forced flag overrides
`auto_reconnect`, `update_periodic_timer` reschedules the timer, and the
success message is logged. -/
def reload_config (s : AppState) (input : ReloadInput) : AppState :=
  match input with
  | .parseError desc => log s ("重新加载配置文件失败: " ++ desc)
  | .parsed nc =>
    let s1 := { s with config := nc }
    match nc.settings with
    | none => log s1 ("重新加载配置文件失败: " ++ keyErrMsg "Settings")
    | some st =>
      let s2 := { s1 with
        auto_reconnect := st.auto_reconnect.getD true,
        check_interval := st.check_interval.getD 60,
        periodic_login_interval := st.periodic_login_interval.getD 0,
        forced_auto_reconnect := st.forced_auto_reconnect.getD false }
      let s2 := if s2.forced_auto_reconnect then
          { s2 with auto_reconnect := true }
        else s2
      match nc.login with
      | none => log s2 ("重新加载配置文件失败: " ++ keyErrMsg "Login")
      | some _ =>
        let s3 := update_periodic_timer s2
        log s3 "配置文件已重新加载"

/-- `NetworkLoginApp.on_login_result`: logs the delivered result; the
worker thread that produced it has terminated, so the ghost in-flight
count drops by one. -/
def on_login_result (s : AppState) (message : String) (success : Bool) :
    AppState :=
  let s := { s with inFlight := s.inFlight - 1 }
  if success then log s ("✓ " ++ message)
  else log s ("✗ " ++ message)

end NetworkLoginApp

/-- The external events the controller reacts to: the three login triggers
(manual request, probe result, periodic timer fire), delivery of a worker's
result, the auto-reconnect toggle, a live periodic-interval change, and a
configuration reload. -/
inductive Event where
  | manual
  | probe (reachable : Bool)
  | periodicFire
  | attemptDone (message : String) (success : Bool)
  | toggleAuto (requested : Bool)
  | setPeriodicInterval (n : Nat)
  | reload (input : NetworkLoginApp.ReloadInput)

/-- One controller step: dispatches an event to the slot that handles it. A
`periodicFire` is delivered only while the `QTimer` is running; when the
timer is stopped no timeout exists, modelled as a no-op. -/
def step (s : AppState) (e : Event) : Except String AppState :=
  match e with
  | .manual => NetworkLoginApp.manual_login s
  | .probe r => NetworkLoginApp.on_network_status_changed s r
  | .periodicFire =>
    match s.timer with
    | some _ => NetworkLoginApp.periodic_login s
    | none => .ok s
  | .attemptDone m ok => .ok (NetworkLoginApp.on_login_result s m ok)
  | .toggleAuto b => NetworkLoginApp.toggle_auto_reconnect s b
  | .setPeriodicInterval n => NetworkLoginApp.update_periodic_login_interval s n
  | .reload i => NetworkLoginApp.reload_config s i |> .ok

/-- Runs a sequence of events from a state, stopping at the first uncaught
exception. -/
def run (s : AppState) : List Event → Except String AppState
  | [] => .ok s
  | e :: es =>
    match step s e with
    | .ok s' => run s' es
    | .error err => .error err

/-! ### Helper lemmas -/

/-- A character list starts with any prefix of itself. -/
theorem startsL_self_append (l1 l2 : List Char) : startsL (l1 ++ l2) l1 = true := by
  induction l1 with
  | nil => cases l2 <;> rfl
  | cons a as ih => simp [startsL, ih]

/-- A character list does not start with a needle whose head differs. -/
theorem startsL_head_ne (a b : Char) (as bs : List Char) (h : (a == b) = false) :
    startsL (a :: as) (b :: bs) = false := by
  simp [startsL, h]

/-- Projects the ghost in-flight attempt count out of a slot result. -/
def inFlightOf : Except String AppState → Option Nat
  | .ok s => some s.inFlight
  | .error _ => none

/-- Convenience constructor for a worker configuration with every key
present. -/
def mkWorkerConfig (url opr u p tag rp : String) (hs : List (String × String)) :
    WorkerConfig :=
  ⟨some ⟨some url, some opr, some u, some p, some tag, some rp⟩, some hs⟩

/-! ### Claims about the login worker -/

/-- C3: for every HTTP response received by a login attempt with a fully
populated configuration, the classification follows the ordered policy of
the spec: a JSON body whose `success` field is `true` yields the success
signal carrying `msg`; `success = false` yields the failure signal carrying
`msg`, or `未知错误` ("unknown error") when `msg` is absent; a non-JSON body
containing `success` or `logon success` case-insensitively yields the bare
success signal; any other non-JSON body yields the failure signal carrying
the first 100 characters of the body. -/
theorem response_classification (url opr u p tag rp : String)
    (hs : List (String × String)) :
    (∀ fields text m, pyGet fields "success" = some (.jbool true) →
      pyGet fields "msg" = some (.jstr m) →
      V122.do_login (mkWorkerConfig url opr u p tag rp hs)
        (.response (some (.jobj fields)) text) = [("登录成功: " ++ m, true)]) ∧
    (∀ fields text m, pyGet fields "success" = some (.jbool false) →
      pyGet fields "msg" = some (.jstr m) →
      V122.do_login (mkWorkerConfig url opr u p tag rp hs)
        (.response (some (.jobj fields)) text) = [("登录失败: " ++ m, false)]) ∧
    (∀ fields text, pyGet fields "success" = some (.jbool false) →
      pyGet fields "msg" = none →
      V122.do_login (mkWorkerConfig url opr u p tag rp hs)
        (.response (some (.jobj fields)) text) = [("登录失败: 未知错误", false)]) ∧
    (∀ text, (pyIn "success" (pyLower text) ||
        pyIn "logon success" (pyLower text)) = true →
      V122.do_login (mkWorkerConfig url opr u p tag rp hs)
        (.response none text) = [("登录成功", true)]) ∧
    (∀ text, (pyIn "success" (pyLower text) ||
        pyIn "logon success" (pyLower text)) = false →
      V122.do_login (mkWorkerConfig url opr u p tag rp hs)
        (.response none text) = [("登录响应: " ++ text.take 100, false)]) := by
  refine ⟨?_, ?_, ?_, ?_, ?_⟩
  · intro fields text m h1 h2
    simp [V122.do_login, mkWorkerConfig, h1, h2, pyTruthy, pyStr]
  · intro fields text m h1 h2
    simp [V122.do_login, mkWorkerConfig, h1, h2, pyTruthy, pyStr]
  · intro fields text h1 h2
    simp [V122.do_login, mkWorkerConfig, h1, h2, pyTruthy, pyStr]
  · intro text h
    simp [V122.do_login, mkWorkerConfig, h]
  · intro text h
    simp [V122.do_login, mkWorkerConfig, h]

/-- Witness for `response_classification`: the spec's own examples, checked
on a concrete configuration. -/
theorem response_classification_witness :
    V122.do_login (mkWorkerConfig "http://portal/login.php" "pwdLogin" "u" "p" "t" "0" [])
      (.response (some (.jobj [("success", .jbool true), ("msg", .jstr "ok")])) "") =
      [("登录成功: ok", true)] :=
  (response_classification "http://portal/login.php" "pwdLogin" "u" "p" "t" "0" []).1
    [("success", .jbool true), ("msg", .jstr "ok")] "" "ok" (by rfl) (by rfl)

/-- C4: a network-layer failure (modelled as the raised
`requests.exceptions.RequestException`, which covers connection refused,
DNS failure and timeout) makes the attempt emit the connection-failure
signal, whose abstraction under `outcomeOfSignal` is the spec's
`TransportError` — a tag distinct from both `Success` and `Failure` — while
no signal emitted for a delivered HTTP response ever abstracts to
`TransportError`. -/
theorem transport_error_distinct (url opr u p tag rp : String)
    (hs : List (String × String)) :
    (∀ desc, V122.do_login (mkWorkerConfig url opr u p tag rp hs)
        (.requestError desc) = [("连接失败: " ++ desc, false)]) ∧
    (∀ desc, outcomeOfSignal ("连接失败: " ++ desc, false) =
        .TransportError ("连接失败: " ++ desc)) ∧
    (∀ m m', LoginOutcome.TransportError m ≠ .Success m' ∧
        LoginOutcome.TransportError m ≠ .Failure m') ∧
    (∀ json text sig,
        sig ∈ V122.do_login (mkWorkerConfig url opr u p tag rp hs)
          (.response json text) →
        (outcomeOfSignal sig).isTransport = false) := by
  refine ⟨?_, ?_, ?_, ?_⟩
  · intro desc
    simp [V122.do_login, mkWorkerConfig]
  · intro desc
    have hd : ("连接失败: " ++ desc).data =
        "连接失败".data ++ ([':', ' '] ++ desc.data) := by
      rw [String.data_append]
      rfl
    have hs' : startsL ("连接失败: " ++ desc).data "连接失败".data = true := by
      rw [hd]
      exact startsL_self_append _ _
    simp [outcomeOfSignal, hs']
    exact startsL_self_append ['连', '接', '失', '败'] (':' :: ' ' :: desc.data)
  · intro m m'
    exact ⟨by simp, by simp⟩
  · intro json text sig hmem
    have key : ∀ (pre m : String) (c1 : Char) (rest : List Char),
        pre.data = c1 :: rest → (c1 == '连') = false →
        (outcomeOfSignal (pre ++ m, false)).isTransport = false := by
      intro pre m c1 rest hm hne
      have hf : startsL (pre.data ++ m.data) ['连', '接', '失', '败'] = false := by
        rw [hm, List.cons_append]
        exact startsL_head_ne _ _ _ _ hne
      simp [outcomeOfSignal, hf, LoginOutcome.isTransport]
    simp only [V122.do_login, mkWorkerConfig] at hmem
    rcases json with _ | v
    · by_cases h : (pyIn "success" (pyLower text) ||
          pyIn "logon success" (pyLower text)) = true
      · simp [h] at hmem
        subst hmem
        simp [outcomeOfSignal, LoginOutcome.isTransport]
      · simp [eq_false_of_ne_true h] at hmem
        subst hmem
        exact key "登录响应: " _ '登' ['录', '响', '应', ':', ' '] rfl (by decide)
    · rcases v with _ | b | n | s | xs | fields
      · simp at hmem
        subst hmem
        exact key "错误: " _ '错' ['误', ':', ' '] rfl (by decide)
      · simp at hmem
        subst hmem
        exact key "错误: " _ '错' ['误', ':', ' '] rfl (by decide)
      · simp at hmem
        subst hmem
        exact key "错误: " _ '错' ['误', ':', ' '] rfl (by decide)
      · simp at hmem
        subst hmem
        exact key "错误: " _ '错' ['误', ':', ' '] rfl (by decide)
      · simp at hmem
        subst hmem
        exact key "错误: " _ '错' ['误', ':', ' '] rfl (by decide)
      · by_cases h : pyTruthy ((pyGet fields "success").getD .jnull) = true
        · simp [h] at hmem
          subst hmem
          simp [outcomeOfSignal, LoginOutcome.isTransport]
        · simp [eq_false_of_ne_true h] at hmem
          subst hmem
          exact key "登录失败: " _ '登' ['录', '失', '败', ':', ' '] rfl (by decide)

/-- Witness for `transport_error_distinct`: a concrete timeout description
on a concrete configuration. -/
theorem transport_error_distinct_witness :
    V122.do_login (mkWorkerConfig "http://portal/login.php" "pwdLogin" "u" "p" "t" "0" [])
      (.requestError "timeout") = [("连接失败: timeout", false)] ∧
    outcomeOfSignal ("连接失败: timeout", false) =
      .TransportError ("连接失败: timeout") :=
  ⟨(transport_error_distinct "http://portal/login.php" "pwdLogin" "u" "p" "t" "0" []).1
      "timeout",
   (transport_error_distinct "http://portal/login.php" "pwdLogin" "u" "p" "t" "0" []).2.1
      "timeout"⟩

/-- C9: the worker is total at its interface: for every configuration and
every transport result it emits exactly one `login_result` signal (the model
returns the list of emissions, so length one on every input is exactly
"one signal, no escaping exception"); a configuration whose `Login` section
is missing, or whose `userName` key is missing, yields the single caught
`KeyError` signal with `success = false`; a response whose JSON decodes to a
non-mapping value yields the single caught `AttributeError` signal with
`success = false`. -/
theorem worker_totality :
    (∀ cfg t, (V122.do_login cfg t).length = 1) ∧
    (∀ hd t, V122.do_login ⟨none, hd⟩ t =
      [("错误: " ++ keyErrMsg "Login", false)]) ∧
    (∀ url opr pw tag rp hd t,
      V122.do_login ⟨some ⟨some url, some opr, none, pw, tag, rp⟩, hd⟩ t =
        [("错误: " ++ keyErrMsg "userName", false)]) ∧
    (∀ url opr u p tag rp hd text v, (∀ fields, v ≠ .jobj fields) →
      V122.do_login (mkWorkerConfig url opr u p tag rp hd)
        (.response (some v) text) = [("错误: " ++ attrErrMsg v, false)]) := by
  refine ⟨?_, ?_, ?_, ?_⟩
  · intro cfg t
    obtain ⟨lg, hd⟩ := cfg
    rcases lg with _ | lg
    · rfl
    · obtain ⟨url, opr, u, p, tag, rp⟩ := lg
      rcases url with _ | url
      · rfl
      rcases opr with _ | opr
      · rfl
      rcases u with _ | u
      · rfl
      rcases p with _ | p
      · rfl
      rcases tag with _ | tag
      · rfl
      rcases rp with _ | rp
      · rfl
      rcases hd with _ | hd
      · rfl
      rcases t with ⟨json, text⟩ | desc
      · rcases json with _ | v
        · simp only [V122.do_login]
          split <;> rfl
        · rcases v with _ | b | n | s | xs | fields
          · rfl
          · rfl
          · rfl
          · rfl
          · rfl
          · simp only [V122.do_login]
            split <;> rfl
      · rfl
  · intro hd t
    rfl
  · intro url opr pw tag rp hd t
    rfl
  · intro url opr u p tag rp hd text v hv
    rcases v with _ | b | n | s | xs | fields
    · rfl
    · rfl
    · rfl
    · rfl
    · rfl
    · exact absurd rfl (hv fields)

/-- Witness for `worker_totality`: its conjuncts applied at concrete
inputs, including a JSON response decoding to a bare string. -/
theorem worker_totality_witness :
    (V122.do_login ⟨none, none⟩ (.response none "x")).length = 1 ∧
    V122.do_login (mkWorkerConfig "a" "b" "c" "d" "e" "f" [])
      (.response (some (.jstr "success")) "success") =
      [("错误: " ++ attrErrMsg (.jstr "success"), false)] :=
  ⟨worker_totality.1 ⟨none, none⟩ (.response none "x"),
   worker_totality.2.2.2 "a" "b" "c" "d" "e" "f" [] "success" (.jstr "success")
     (fun fields h => by cases h)⟩

/-- C10: the V1.2 and V1.2.2 login workers are equivalent: on every
configuration and every response or transport failure they emit the same
`(message, success)` signals. (The two source files' `LoginWorker` classes
are textually identical.) -/
theorem worker_v12_v122_equiv :
    ∀ cfg t, V12.do_login cfg t = V122.do_login cfg t :=
  fun _ _ => rfl

/-! ### Claims about the reconnect controller -/

/-- C2: in every state with `forced_auto_reconnect` set (whose effective
auto-reconnect, the `auto_reconnect` attribute the reactive trigger reads,
is `true` — the code forces it on at startup and on every reload), invoking
the toggle with any requested value (in particular `false`) returns
successfully with the configuration, the `auto_reconnect` setting and every
other field unchanged, and the rejection reported back by appending the
lock message to the log — a visible no-op, not a silent one. -/
theorem forced_auto_reconnect_locked (s : AppState) (requested : Bool)
    (hf : s.forced_auto_reconnect = true) (ha : s.auto_reconnect = true) :
    NetworkLoginApp.toggle_auto_reconnect s requested =
      .ok { s with logs := s.logs ++ ["自动重连已被配置文件锁定，无法修改"] } ∧
    ∀ s', NetworkLoginApp.toggle_auto_reconnect s requested = .ok s' →
      s'.auto_reconnect = true ∧ s'.config = s.config ∧
      s'.logs ≠ s.logs := by
  have h1 : NetworkLoginApp.toggle_auto_reconnect s requested =
      .ok { s with logs := s.logs ++ ["自动重连已被配置文件锁定，无法修改"] } := by
    simp [NetworkLoginApp.toggle_auto_reconnect, hf, NetworkLoginApp.log]
  refine ⟨h1, ?_⟩
  intro s' hs'
  rw [h1] at hs'
  cases hs'
  refine ⟨ha, rfl, ?_⟩
  simp

/-- Witness for `forced_auto_reconnect_locked` at a concrete locked state. -/
theorem forced_auto_reconnect_locked_witness :
    NetworkLoginApp.toggle_auto_reconnect
      ⟨⟨some ⟨some "u", some "p", some "http://x/login.php"⟩,
         some ⟨some true, some 60, some 0, some true⟩⟩,
        true, 60, 0, true, none, 0, 0, []⟩ false =
      .ok ⟨⟨some ⟨some "u", some "p", some "http://x/login.php"⟩,
         some ⟨some true, some 60, some 0, some true⟩⟩,
        true, 60, 0, true, none, 0, 0, ["自动重连已被配置文件锁定，无法修改"]⟩ :=
  (forced_auto_reconnect_locked
    ⟨⟨some ⟨some "u", some "p", some "http://x/login.php"⟩,
       some ⟨some true, some 60, some 0, some true⟩⟩,
      true, 60, 0, true, none, 0, 0, []⟩ false rfl rfl).1

/-- C5: with any of the username, the password or the URL still at its
placeholder value from the generated default configuration, a login trigger
is refused: `do_login` returns with only the refusal warning appended to
the log, and the ghost counters certify that no worker was spawned and so
no network call was made. -/
theorem placeholder_guard_refuses (s : AppState) (lg : LoginSection)
    (u p url : String) (hl : s.config.login = some lg)
    (hu : lg.userName = some u) (hp : lg.pwd = some p) (hurl : lg.url = some url)
    (hplace : u = NetworkLoginApp.placeholderUser ∨
      p = NetworkLoginApp.placeholderPwd ∨ url = NetworkLoginApp.placeholderUrl) :
    NetworkLoginApp.do_login s =
      .ok { s with logs := s.logs ++ ["错误: 请先编辑配置文件，填写正确的登录信息"] } ∧
    ∀ s', NetworkLoginApp.do_login s = .ok s' →
      s'.spawned = s.spawned ∧ s'.inFlight = s.inFlight := by
  have h1 : NetworkLoginApp.do_login s =
      .ok { s with logs := s.logs ++ ["错误: 请先编辑配置文件，填写正确的登录信息"] } := by
    rcases hplace with h | h | h
    · subst h
      simp [NetworkLoginApp.do_login, hl, hu, NetworkLoginApp.log]
    · subst h
      by_cases h2 : (u == NetworkLoginApp.placeholderUser) = true
      · simp [NetworkLoginApp.do_login, hl, hu, h2, NetworkLoginApp.log]
      · simp [NetworkLoginApp.do_login, hl, hu, hp,
          eq_false_of_ne_true h2, NetworkLoginApp.log]
    · subst h
      by_cases h2 : (u == NetworkLoginApp.placeholderUser) = true
      · simp [NetworkLoginApp.do_login, hl, hu, h2, NetworkLoginApp.log]
      · by_cases h3 : (p == NetworkLoginApp.placeholderPwd) = true
        · simp [NetworkLoginApp.do_login, hl, hu, hp,
            eq_false_of_ne_true h2, h3, NetworkLoginApp.log]
        · simp [NetworkLoginApp.do_login, hl, hu, hp, hurl,
            eq_false_of_ne_true h2, eq_false_of_ne_true h3,
            NetworkLoginApp.placeholderUrl, NetworkLoginApp.log, pyIn]
          decide
  refine ⟨h1, ?_⟩
  intro s' hs'
  rw [h1] at hs'
  cases hs'
  exact ⟨rfl, rfl⟩

/-- Witness for `placeholder_guard_refuses`: the generated default
configuration (all three placeholders) refuses and spawns nothing. -/
theorem placeholder_guard_refuses_witness :
    NetworkLoginApp.do_login
      ⟨⟨some ⟨some "YOUR_USERNAME", some "YOUR_PASSWORD",
          some "http://YOUR_LOGIN_SERVER_URL/ac_portal/login.php"⟩,
         some ⟨some true, some 60, some 0, some false⟩⟩,
        true, 60, 0, false, none, 0, 0, []⟩ =
      .ok ⟨⟨some ⟨some "YOUR_USERNAME", some "YOUR_PASSWORD",
          some "http://YOUR_LOGIN_SERVER_URL/ac_portal/login.php"⟩,
         some ⟨some true, some 60, some 0, some false⟩⟩,
        true, 60, 0, false, none, 0, 0, ["错误: 请先编辑配置文件，填写正确的登录信息"]⟩ :=
  (placeholder_guard_refuses
    ⟨⟨some ⟨some "YOUR_USERNAME", some "YOUR_PASSWORD",
        some "http://YOUR_LOGIN_SERVER_URL/ac_portal/login.php"⟩,
       some ⟨some true, some 60, some 0, some false⟩⟩,
      true, 60, 0, false, none, 0, 0, []⟩
    ⟨some "YOUR_USERNAME", some "YOUR_PASSWORD",
      some "http://YOUR_LOGIN_SERVER_URL/ac_portal/login.php"⟩
    "YOUR_USERNAME" "YOUR_PASSWORD"
    "http://YOUR_LOGIN_SERVER_URL/ac_portal/login.php"
    rfl rfl rfl rfl (Or.inl rfl)).1

/-- C6: probe-result handling. A reachable probe result causes no action at
all, whatever the auto-reconnect setting; an unreachable result with
effective auto-reconnect off causes no action and zero attempts; an
unreachable result with effective auto-reconnect on, the controller idle
(no attempt in flight) and a configured (non-placeholder) login section
starts exactly one attempt: the in-flight count goes from 0 to 1 and the
spawn count rises by one. -/
theorem probe_result_handling :
    (∀ s, NetworkLoginApp.on_network_status_changed s true = .ok s) ∧
    (∀ s, s.auto_reconnect = false →
      NetworkLoginApp.on_network_status_changed s false = .ok s) ∧
    (∀ s lg u p url, s.auto_reconnect = true → s.inFlight = 0 →
      s.config.login = some lg → lg.userName = some u → lg.pwd = some p →
      lg.url = some url → (u == NetworkLoginApp.placeholderUser) = false →
      (p == NetworkLoginApp.placeholderPwd) = false →
      pyIn "YOUR_LOGIN_SERVER" url = false →
      ∀ s', NetworkLoginApp.on_network_status_changed s false = .ok s' →
        s'.inFlight = 1 ∧ s'.spawned = s.spawned + 1) := by
  refine ⟨?_, ?_, ?_⟩
  · intro s
    simp [NetworkLoginApp.on_network_status_changed]
  · intro s ha
    simp [NetworkLoginApp.on_network_status_changed, ha]
  · intro s lg u p url ha hidle hl hu hp hurl hu2 hp2 hurl2 s' hs'
    have h1 : NetworkLoginApp.on_network_status_changed s false =
        .ok { s with logs := s.logs ++ ["检测到网络不可用，尝试登录..."],
                     inFlight := s.inFlight + 1, spawned := s.spawned + 1 } := by
      simp [NetworkLoginApp.on_network_status_changed, ha,
        NetworkLoginApp.do_login, NetworkLoginApp.log, hl, hu, hp, hurl,
        hu2, hp2, hurl2]
    rw [h1] at hs'
    cases hs'
    exact ⟨by simp [hidle], rfl⟩

/-- Witness for `probe_result_handling`: an unreachable probe with
auto-reconnect on, an idle controller and configured credentials spawns
exactly one attempt. -/
theorem probe_result_handling_witness :
    ∀ s', NetworkLoginApp.on_network_status_changed
      ⟨⟨some ⟨some "alice", some "secret", some "http://portal.example/ac_portal/login.php"⟩,
         some ⟨some true, some 60, some 0, some false⟩⟩,
        true, 60, 0, false, none, 0, 0, []⟩ false = .ok s' →
      s'.inFlight = 1 ∧ s'.spawned = 0 + 1 :=
  probe_result_handling.2.2
    ⟨⟨some ⟨some "alice", some "secret", some "http://portal.example/ac_portal/login.php"⟩,
       some ⟨some true, some 60, some 0, some false⟩⟩,
      true, 60, 0, false, none, 0, 0, []⟩
    ⟨some "alice", some "secret", some "http://portal.example/ac_portal/login.php"⟩
    "alice" "secret" "http://portal.example/ac_portal/login.php"
    rfl rfl rfl rfl rfl rfl (by decide) (by decide) (by decide)

/-- C7: the periodic trigger. Changing the interval to `n > 0` through
`update_periodic_login_interval` stores `n` and restarts the timer at
`n * 1000` ms (cancel-and-recreate via `QTimer.start`); changing it to `0`
stops the timer, and with the timer stopped a periodic fire event is a
no-op, so all future periodic attempts are cancelled; a timer fire runs
`periodic_login`, which starts an attempt with no condition on
`auto_reconnect` — the statement carries no hypothesis on that flag. -/
theorem periodic_timer_behaviour :
    (∀ s st n, s.config.settings = some st → 0 < n →
      ∀ s', NetworkLoginApp.update_periodic_login_interval s n = .ok s' →
        s'.timer = some (n * 1000) ∧ s'.periodic_login_interval = n) ∧
    (∀ s st, s.config.settings = some st →
      ∀ s', NetworkLoginApp.update_periodic_login_interval s 0 = .ok s' →
        s'.timer = none ∧ step s' Event.periodicFire = .ok s') ∧
    (∀ s, s.timer = none → step s Event.periodicFire = .ok s) ∧
    (∀ s lg u p url, s.config.login = some lg → lg.userName = some u →
      lg.pwd = some p → lg.url = some url →
      (u == NetworkLoginApp.placeholderUser) = false →
      (p == NetworkLoginApp.placeholderPwd) = false →
      pyIn "YOUR_LOGIN_SERVER" url = false →
      ∀ s', NetworkLoginApp.periodic_login s = .ok s' →
        s'.spawned = s.spawned + 1 ∧ s'.inFlight = s.inFlight + 1) := by
  refine ⟨?_, ?_, ?_, ?_⟩
  · intro s st n hst hn s' hs'
    simp [NetworkLoginApp.update_periodic_login_interval, hst,
      NetworkLoginApp.save_config, NetworkLoginApp.log,
      NetworkLoginApp.update_periodic_timer, 
      Nat.not_eq_zero_of_lt hn] at hs'
    rcases hs' with ⟨rfl⟩
    constructor
    · simp [NetworkLoginApp.update_periodic_timer, NetworkLoginApp.log,
        hn]
    · simp [NetworkLoginApp.update_periodic_timer, NetworkLoginApp.log,
        hn]
  · intro s st hst s' hs'
    simp [NetworkLoginApp.update_periodic_login_interval, hst,
      NetworkLoginApp.save_config, NetworkLoginApp.log,
      NetworkLoginApp.update_periodic_timer] at hs'
    rcases hs' with ⟨rfl⟩
    constructor
    · simp [NetworkLoginApp.update_periodic_timer, NetworkLoginApp.log]
    · simp [step, NetworkLoginApp.update_periodic_timer, NetworkLoginApp.log]
  · intro s ht
    simp [step, ht]
  · intro s lg u p url hl hu hp hurl hu2 hp2 hurl2 s' hs'
    simp [NetworkLoginApp.periodic_login, NetworkLoginApp.do_login,
      NetworkLoginApp.log, hl, hu, hp, hurl, hu2, hp2, hurl2] at hs'
    rcases hs' with ⟨rfl⟩
    exact ⟨rfl, rfl⟩

/-- Witness for `periodic_timer_behaviour`: a live interval change to 30
seconds restarts the timer at 30000 ms. -/
theorem periodic_timer_behaviour_witness :
    ∀ s', NetworkLoginApp.update_periodic_login_interval
      ⟨⟨some ⟨some "alice", some "secret", some "http://portal.example/ac_portal/login.php"⟩,
         some ⟨some true, some 60, some 0, some false⟩⟩,
        true, 60, 0, false, none, 0, 0, []⟩ 30 = .ok s' →
      s'.timer = some (30 * 1000) ∧ s'.periodic_login_interval = 30 :=
  periodic_timer_behaviour.1
    ⟨⟨some ⟨some "alice", some "secret", some "http://portal.example/ac_portal/login.php"⟩,
       some ⟨some true, some 60, some 0, some false⟩⟩,
      true, 60, 0, false, none, 0, 0, []⟩
    ⟨some true, some 60, some 0, some false⟩ 30 rfl (by decide)

/-- A configured (non-placeholder) idle application state used by the
concrete counterexamples and witnesses. -/
def configuredState : AppState :=
  ⟨⟨some ⟨some "alice", some "secret", some "http://portal.example/ac_portal/login.php"⟩,
     some ⟨some true, some 60, some 0, some false⟩⟩,
    true, 60, 0, false, none, 0, 0, []⟩

/-- Does a slot result satisfy "at most one attempt in flight"? (`true` on
an uncaught exception, where no state exists to inspect). -/
def inFlightBound (r : Except String AppState) : Bool :=
  match r with
  | .ok s => decide (s.inFlight ≤ 1)
  | .error _ => true

/-- C1 counterexample: two manual triggers in a row from a configured idle
state leave two attempts in flight — `NetworkLoginApp.do_login` has no
in-flight check, so the second trigger is neither serialized against nor
dropped while the first attempt is still unresolved, refuting "at most one
login attempt is in flight at any time". -/
theorem concurrent_attempts_cex :
    inFlightOf (run configuredState [Event.manual, Event.manual]) = some 2 ∧
    inFlightBound (run configuredState [Event.manual, Event.manual]) = false :=
  ⟨rfl, rfl⟩

/-- C1 amended: each trigger that passes the credentials guard starts a new
login attempt unconditionally — the in-flight and spawn counters rise by
one whatever the current in-flight count, so triggers are never dropped
because of an in-flight attempt and attempts are not serialized. -/
theorem do_login_always_spawns (s : AppState) (lg : LoginSection)
    (u p url : String) (hl : s.config.login = some lg)
    (hu : lg.userName = some u) (hp : lg.pwd = some p) (hurl : lg.url = some url)
    (hu2 : (u == NetworkLoginApp.placeholderUser) = false)
    (hp2 : (p == NetworkLoginApp.placeholderPwd) = false)
    (hurl2 : pyIn "YOUR_LOGIN_SERVER" url = false) :
    NetworkLoginApp.do_login s =
      .ok { s with inFlight := s.inFlight + 1, spawned := s.spawned + 1 } := by
  simp [NetworkLoginApp.do_login, hl, hu, hp, hurl, hu2, hp2, hurl2]

/-- Witness for `do_login_always_spawns`: a state with one attempt already
in flight spawns a second one. -/
theorem do_login_always_spawns_witness :
    NetworkLoginApp.do_login
      ⟨⟨some ⟨some "alice", some "secret", some "http://portal.example/ac_portal/login.php"⟩,
         some ⟨some true, some 60, some 0, some false⟩⟩,
        true, 60, 0, false, none, 1, 1, []⟩ =
      .ok ⟨⟨some ⟨some "alice", some "secret", some "http://portal.example/ac_portal/login.php"⟩,
         some ⟨some true, some 60, some 0, some false⟩⟩,
        true, 60, 0, false, none, 2, 2, []⟩ :=
  do_login_always_spawns
    ⟨⟨some ⟨some "alice", some "secret", some "http://portal.example/ac_portal/login.php"⟩,
       some ⟨some true, some 60, some 0, some false⟩⟩,
      true, 60, 0, false, none, 1, 1, []⟩
    ⟨some "alice", some "secret", some "http://portal.example/ac_portal/login.php"⟩
    "alice" "secret" "http://portal.example/ac_portal/login.php"
    rfl rfl rfl rfl (by decide) (by decide) (by decide)

/-- A parsed document with neither a `Login` nor a `Settings` section
(e.g. a YAML file reading `hello: world`): well-formed YAML, malformed as a
configuration. -/
def ncBad : AppConfig := ⟨none, none⟩

/-- C8 counterexample: reloading a persisted document that parses but is
malformed as a configuration is caught and surfaced as a warning, but the
in-memory snapshot is NOT retained — `self.config = new_config` runs before
`self.config['Settings']` raises, so the post-state's snapshot is the
malformed document, refuting "the previously held in-memory configuration
snapshot is retained unchanged". -/
theorem reload_malformed_cex :
    NetworkLoginApp.reload_config configuredState (.parsed ncBad) =
      ⟨ncBad, true, 60, 0, false, none, 0, 0,
        ["重新加载配置文件失败: " ++ keyErrMsg "Settings"]⟩ ∧
    ncBad ≠ configuredState.config :=
  ⟨rfl, by decide⟩

/-- C8 amended: a reload of malformed persisted data is always recoverable
(the slot is total and only logs the warning, never raises); when the data
fails to parse the whole state, snapshot included, is retained unchanged;
when the data parses but lacks the `Settings` section the warning is
logged and the derived settings are retained, but the in-memory snapshot
has already been replaced by the malformed document. -/
theorem reload_malformed_recovery :
    (∀ s desc, NetworkLoginApp.reload_config s (.parseError desc) =
      { s with logs := s.logs ++ ["重新加载配置文件失败: " ++ desc] }) ∧
    (∀ s nc, nc.settings = none →
      NetworkLoginApp.reload_config s (.parsed nc) =
        { s with config := nc,
                 logs := s.logs ++
                   ["重新加载配置文件失败: " ++ keyErrMsg "Settings"] }) ∧
    (∀ s i, step s (.reload i) = .ok (NetworkLoginApp.reload_config s i)) := by
  refine ⟨?_, ?_, ?_⟩
  · intro s desc
    rfl
  · intro s nc h
    simp [NetworkLoginApp.reload_config, h, NetworkLoginApp.log]
  · intro s i
    rfl

/-- Witness for `reload_malformed_recovery`: a document with a `Login`
section but no `Settings` section. -/
theorem reload_malformed_recovery_witness :
    NetworkLoginApp.reload_config configuredState
      (.parsed ⟨some ⟨some "u", some "p", some "q"⟩, none⟩) =
      { configuredState with
        config := ⟨some ⟨some "u", some "p", some "q"⟩, none⟩,
        logs := configuredState.logs ++
          ["重新加载配置文件失败: " ++ keyErrMsg "Settings"] } :=
  reload_malformed_recovery.2.1 configuredState
    ⟨some ⟨some "u", some "p", some "q"⟩, none⟩ rfl
